import Mathlib

/-!
Shallow embedding of the dxvk pipeline-layout subsystem
(`src/dxvk/dxvk_pipelayout.{h,cpp}`, `src/dxvk/dxvk_pipemanager.cpp`).

Machine integers (`uint32_t`, Vulkan enums and flag masks) are embedded as
`Nat`; bitwise operations use `&&&` / `|||`.  Where C++ `uint32_t`
arithmetic can wrap (push-constant range arithmetic) the embedding applies
an explicit `% 2^32`.  The Vulkan device entry points
(`vkCreateDescriptorSetLayout`, `vkCreateDescriptorUpdateTemplate`,
`vkCreatePipelineLayout`) are modelled by an oracle: a list of `Bool`
success results consumed one call at a time; constructors are embedded as
functions from the oracle to a trace of which native handles were created
and which were released before an error propagated.
-/

namespace Dxvk

/-- Vulkan shader stage flag bit for the vertex stage. -/
def VK_SHADER_STAGE_VERTEX_BIT : Nat := 0x1
/-- Vulkan shader stage flag bit for the tessellation control stage. -/
def VK_SHADER_STAGE_TESSELLATION_CONTROL_BIT : Nat := 0x2
/-- Vulkan shader stage flag bit for the tessellation evaluation stage. -/
def VK_SHADER_STAGE_TESSELLATION_EVALUATION_BIT : Nat := 0x4
/-- Vulkan shader stage flag bit for the geometry stage. -/
def VK_SHADER_STAGE_GEOMETRY_BIT : Nat := 0x8
/-- Vulkan shader stage flag bit for the fragment stage. -/
def VK_SHADER_STAGE_FRAGMENT_BIT : Nat := 0x10
/-- Vulkan shader stage flag bit for the compute stage. -/
def VK_SHADER_STAGE_COMPUTE_BIT : Nat := 0x20

/-- Vulkan descriptor type value `VK_DESCRIPTOR_TYPE_UNIFORM_BUFFER`. -/
def VK_DESCRIPTOR_TYPE_UNIFORM_BUFFER : Nat := 6
/-- Vulkan descriptor type value `VK_DESCRIPTOR_TYPE_STORAGE_BUFFER`. -/
def VK_DESCRIPTOR_TYPE_STORAGE_BUFFER : Nat := 7
/-- Vulkan descriptor type value `VK_DESCRIPTOR_TYPE_UNIFORM_BUFFER_DYNAMIC`. -/
def VK_DESCRIPTOR_TYPE_UNIFORM_BUFFER_DYNAMIC : Nat := 8

/-- Modulus of `uint32_t` arithmetic. -/
def U32 : Nat := 4294967296

namespace DxvkDescriptorSets

/-- Descriptor set index for all compute-shader resources (`CsAll`). -/
def CsAll : Nat := 0
/-- Descriptor set index for fragment-shader views and samplers (`FsViews`). -/
def FsViews : Nat := 0
/-- Descriptor set index for fragment-shader buffers (`FsBuffers`). -/
def FsBuffers : Nat := 1
/-- Descriptor set index for all other graphics-stage resources (`VsAll`). -/
def VsAll : Nat := 2
/-- Number of descriptor sets (`SetCount`). -/
def SetCount : Nat := 3

end DxvkDescriptorSets

/-- Embedding of `struct DxvkBindingInfo` (dxvk_pipelayout.h): one
shader-visible resource binding. -/
structure DxvkBindingInfo where
  descriptorType  : Nat
  resourceBinding : Nat
  viewType        : Nat
  stages          : Nat
  access          : Nat
deriving DecidableEq, Repr

namespace DxvkBindingInfo

/-- Embedding of `DxvkBindingInfo::computeSetIndex` (dxvk_pipelayout.cpp,
lines 10-27). -/
def computeSetIndex (b : DxvkBindingInfo) : Nat :=
  if b.stages &&& VK_SHADER_STAGE_COMPUTE_BIT ≠ 0 then
    DxvkDescriptorSets.CsAll
  else if b.stages &&& VK_SHADER_STAGE_FRAGMENT_BIT ≠ 0 then
    if b.descriptorType = VK_DESCRIPTOR_TYPE_UNIFORM_BUFFER
     ∨ b.descriptorType = VK_DESCRIPTOR_TYPE_STORAGE_BUFFER then
      DxvkDescriptorSets.FsBuffers
    else
      DxvkDescriptorSets.FsViews
  else
    DxvkDescriptorSets.VsAll

/-- Embedding of `DxvkBindingInfo::canMerge` (dxvk_pipelayout.cpp,
lines 30-37). -/
def canMerge (b other : DxvkBindingInfo) : Bool :=
  if b.stages &&& VK_SHADER_STAGE_FRAGMENT_BIT
      ≠ other.stages &&& VK_SHADER_STAGE_FRAGMENT_BIT then
    false
  else
    b.descriptorType = other.descriptorType
      ∧ b.resourceBinding = other.resourceBinding
      ∧ b.viewType = other.viewType

/-- Embedding of `DxvkBindingInfo::merge` (dxvk_pipelayout.cpp, lines
40-43): `stages |= binding.stages; access |= binding.access`. -/
def merge (b other : DxvkBindingInfo) : DxvkBindingInfo :=
  { b with stages := b.stages ||| other.stages,
           access := b.access ||| other.access }

/-- Embedding of `DxvkBindingInfo::eq` (dxvk_pipelayout.cpp, lines 46-52). -/
def eqb (b other : DxvkBindingInfo) : Bool :=
  b.descriptorType = other.descriptorType
    ∧ b.resourceBinding = other.resourceBinding
    ∧ b.viewType = other.viewType
    ∧ b.stages = other.stages
    ∧ b.access = other.access

end DxvkBindingInfo

/-- Embedding of `VkPushConstantRange`. -/
structure VkPushConstantRange where
  stageFlags : Nat
  offset     : Nat
  size       : Nat
deriving DecidableEq, Repr

/-- Embedding of `class DxvkBindingLayout` (dxvk_pipelayout.h): three
descriptor-set binding lists (`m_bindings`, indexed by
`DxvkDescriptorSets` constants) plus the accumulated push-constant range
(`m_pushConst`). -/
structure DxvkBindingLayout where
  set0      : List DxvkBindingInfo
  set1      : List DxvkBindingInfo
  set2      : List DxvkBindingInfo
  pushConst : VkPushConstantRange
deriving DecidableEq, Repr

namespace DxvkBindingLayout

/-- Embedding of the `DxvkBindingLayout` default constructor
(dxvk_pipelayout.cpp, lines 66-69): empty sets, `m_pushConst = {0,0,0}`. -/
def empty : DxvkBindingLayout := ⟨[], [], [], ⟨0, 0, 0⟩⟩

/-- The loop body of `DxvkBindingLayout::addBinding` (dxvk_pipelayout.cpp,
lines 80-87): scan the set for a merge candidate, merge in place on a hit,
otherwise append at the end. -/
def addBindingToList : List DxvkBindingInfo → DxvkBindingInfo → List DxvkBindingInfo
  | [], binding => [binding]
  | b :: rest, binding =>
    if b.canMerge binding then b.merge binding :: rest
    else b :: addBindingToList rest binding

/-- Embedding of `DxvkBindingLayout::addBinding` (dxvk_pipelayout.cpp,
lines 77-88): target set chosen by `computeSetIndex`. -/
def addBinding (l : DxvkBindingLayout) (binding : DxvkBindingInfo) : DxvkBindingLayout :=
  match binding.computeSetIndex with
  | 0 => { l with set0 := addBindingToList l.set0 binding }
  | 1 => { l with set1 := addBindingToList l.set1 binding }
  | _ => { l with set2 := addBindingToList l.set2 binding }

/-- Embedding of `DxvkBindingLayout::addPushConstantRange`
(dxvk_pipelayout.cpp, lines 91-98), with `uint32_t` wrap-around made
explicit: the C++ subtraction `max(oldEnd, newEnd) - m_pushConst.offset`
wraps modulo `2^32`. -/
def addPushConstantRange (l : DxvkBindingLayout) (range : VkPushConstantRange) :
    DxvkBindingLayout :=
  let oldEnd := (l.pushConst.offset + l.pushConst.size) % U32
  let newEnd := (range.offset + range.size) % U32
  let stageFlags := l.pushConst.stageFlags ||| range.stageFlags
  let offset := min l.pushConst.offset range.offset
  let size := (max oldEnd newEnd + U32 - offset) % U32
  { l with pushConst := ⟨stageFlags, offset, size⟩ }

/-- Folds `addBinding` over a list of bindings; the inner loop of
`DxvkBindingLayout::merge` for one source set. -/
def addAll (l : DxvkBindingLayout) (bs : List DxvkBindingInfo) : DxvkBindingLayout :=
  bs.foldl addBinding l

/-- Embedding of `DxvkBindingLayout::merge` (dxvk_pipelayout.cpp, lines
101-108): re-add every binding of the other layout set by set, then union
the push-constant range. -/
def merge (l other : DxvkBindingLayout) : DxvkBindingLayout :=
  ((((l.addAll other.set0).addAll other.set1).addAll other.set2).addPushConstantRange
    other.pushConst)

/-- Elementwise comparison of two binding lists with
`DxvkBindingInfo::eq`; the inner loops of `DxvkBindingLayout::eq`. -/
def listEqb : List DxvkBindingInfo → List DxvkBindingInfo → Bool
  | [], [] => true
  | [], _ :: _ => false
  | _ :: _, [] => false
  | a :: as, b :: bs => a.eqb b && listEqb as bs

/-- Embedding of `DxvkBindingLayout::eq` (dxvk_pipelayout.cpp, lines
111-130): per-set sizes, then per-set elementwise binding equality, then
the push-constant range fields. -/
def eqb (l other : DxvkBindingLayout) : Bool :=
  (l.set0.length = other.set0.length
      ∧ l.set1.length = other.set1.length
      ∧ l.set2.length = other.set2.length : Bool)
    && listEqb l.set0 other.set0
    && listEqb l.set1 other.set1
    && listEqb l.set2 other.set2
    && (l.pushConst.stageFlags = other.pushConst.stageFlags
      ∧ l.pushConst.offset = other.pushConst.offset
      ∧ l.pushConst.size = other.pushConst.size : Bool)

end DxvkBindingLayout

/-- Embedding of `struct DxvkDescriptorSlot` (dxvk_pipelayout.h): one
binding of the legacy single-set scheme. -/
structure DxvkDescriptorSlot where
  slot   : Nat
  type   : Nat
  view   : Nat
  stages : Nat
  access : Nat
deriving DecidableEq, Repr

/-- Embedding of `class DxvkDescriptorSlotMapping` (dxvk_pipelayout.h):
the discovered slot list plus the accumulated push-constant range. -/
structure DxvkDescriptorSlotMapping where
  descriptorSlots : List DxvkDescriptorSlot
  pushConstRange  : VkPushConstantRange
deriving DecidableEq, Repr

namespace DxvkDescriptorSlotMapping

/-- Embedding of `DxvkDescriptorSlotMapping::countDescriptors`
(dxvk_pipelayout.cpp, lines 304-312): running sum of slots of the given
type. -/
def countDescriptors (m : DxvkDescriptorSlotMapping) (type : Nat) : Nat :=
  m.descriptorSlots.foldl (fun count s => count + if s.type = type then 1 else 0) 0

/-- Embedding of `DxvkDescriptorSlotMapping::replaceDescriptors`
(dxvk_pipelayout.cpp, lines 315-322). -/
def replaceDescriptors (m : DxvkDescriptorSlotMapping) (oldType newType : Nat) :
    DxvkDescriptorSlotMapping :=
  { m with descriptorSlots :=
      m.descriptorSlots.map fun s =>
        if s.type = oldType then { s with type := newType } else s }

/-- Embedding of `DxvkDescriptorSlotMapping::makeDescriptorsDynamic`
(dxvk_pipelayout.cpp, lines 296-301): converts uniform buffers when their
count is within the limit; the storage-buffer parameter is accepted but
unused, exactly as in the source. -/
def makeDescriptorsDynamic (m : DxvkDescriptorSlotMapping)
    (uniformBuffers storageBuffers : Nat) : DxvkDescriptorSlotMapping :=
  if m.countDescriptors VK_DESCRIPTOR_TYPE_UNIFORM_BUFFER ≤ uniformBuffers then
    m.replaceDescriptors VK_DESCRIPTOR_TYPE_UNIFORM_BUFFER
      VK_DESCRIPTOR_TYPE_UNIFORM_BUFFER_DYNAMIC
  else
    m

end DxvkDescriptorSlotMapping

/-- Native handles created by the two layout constructors.  `setLayout i`
and `setTemplate i` are the per-set objects of
`DxvkBindingLayoutObjects`; `dset`, `pipe` and `tmpl` are the single
descriptor-set layout, pipeline layout and update template of the legacy
`DxvkPipelineLayout`. -/
inductive NativeHandle where
  | setLayout (i : Nat)
  | setTemplate (i : Nat)
  | pipeLayout
  | dset
  | pipe
  | tmpl
deriving DecidableEq, Repr

/-- Outcome trace of a constructor run: the native handles it created (in
creation order), the handles it released before propagating an error, and
whether construction succeeded. -/
structure CtorTrace where
  created  : List NativeHandle
  released : List NativeHandle
  ok       : Bool
deriving DecidableEq, Repr

/-- Consumes the next native-call result from the oracle; an exhausted
oracle means the call succeeds. -/
def takeResult : List Bool → Bool × List Bool
  | [] => (true, [])
  | b :: rest => (b, rest)

/-- Per-set step of the `DxvkBindingLayoutObjects` constructor
(dxvk_pipelayout.cpp, lines 159-207): create the set's descriptor-set
layout (throwing on failure), then, if the set has at least one binding,
its descriptor-update template (throwing on failure).  On either throw the
source releases nothing, so the error carries the handles created so far
and an empty release list is produced by the caller. -/
def modernSetStep (i count : Nat) (created : List NativeHandle) (oracle : List Bool) :
    Except (List NativeHandle) (List NativeHandle × List Bool) :=
  let r1 := takeResult oracle
  if r1.1 = false then .error created
  else
    let created := created ++ [NativeHandle.setLayout i]
    if count > 0 then
      let r2 := takeResult r1.2
      if r2.1 = false then .error created
      else .ok (created ++ [NativeHandle.setTemplate i], r2.2)
    else .ok (created, r1.2)

/-- Embedding of the native-object lifecycle of the
`DxvkBindingLayoutObjects` constructor (dxvk_pipelayout.cpp, lines
148-222): three set iterations followed by the pipeline-layout creation.
Every failure path throws `DxvkError` immediately without destroying any
previously created handle, so `released` is empty on every path. -/
def modernConstruct (layout : DxvkBindingLayout) (oracle : List Bool) : CtorTrace :=
  match modernSetStep 0 layout.set0.length [] oracle with
  | .error c => ⟨c, [], false⟩
  | .ok (c0, o0) =>
    match modernSetStep 1 layout.set1.length c0 o0 with
    | .error c => ⟨c, [], false⟩
    | .ok (c1, o1) =>
      match modernSetStep 2 layout.set2.length c1 o1 with
      | .error c => ⟨c, [], false⟩
      | .ok (c2, o2) =>
        let r := takeResult o2
        if r.1 = false then ⟨c2, [], false⟩
        else ⟨c2 ++ [NativeHandle.pipeLayout], [], true⟩

/-- Embedding of the native-object lifecycle of the legacy
`DxvkPipelineLayout` constructor (dxvk_pipelayout.cpp, lines 325-423).
`bindingCount` is the slot-mapping binding count, `maxBindings` the
`MaxNumActiveBindings` cap.  The binding-count check throws before any
native call; a descriptor-set-layout failure throws with nothing created;
a pipeline-layout failure destroys the descriptor-set layout first (a
no-op when no set layout was created, since destroying `VK_NULL_HANDLE`
does nothing); an update-template failure destroys the descriptor-set
layout and the pipeline layout first. -/
def legacyConstruct (bindingCount maxBindings : Nat) (oracle : List Bool) : CtorTrace :=
  if bindingCount > maxBindings then ⟨[], [], false⟩
  else if bindingCount > 0 then
    let r1 := takeResult oracle
    if r1.1 = false then ⟨[], [], false⟩
    else
      let r2 := takeResult r1.2
      if r2.1 = false then ⟨[NativeHandle.dset], [NativeHandle.dset], false⟩
      else
        let r3 := takeResult r2.2
        if r3.1 = false then
          ⟨[NativeHandle.dset, NativeHandle.pipe],
           [NativeHandle.dset, NativeHandle.pipe], false⟩
        else ⟨[NativeHandle.dset, NativeHandle.pipe, NativeHandle.tmpl], [], true⟩
  else
    let r1 := takeResult oracle
    if r1.1 = false then ⟨[], [], false⟩
    else ⟨[NativeHandle.pipe], [], true⟩

/-- Embedding of `struct DxvkBindingMapping` (dxvk_pipelayout.h). -/
structure DxvkBindingMapping where
  set     : Nat
  binding : Nat
  constId : Nat
deriving DecidableEq, Repr

/-- Entries inserted into `m_mapping` while the
`DxvkBindingLayoutObjects` constructor walks one set (dxvk_pipelayout.cpp,
lines 166-190), in iteration order: binding `j` of set `i` is recorded
under its original `resourceBinding` slot with the running global
`constId`. -/
def recordSet (i : Nat) : Nat → Nat → List DxvkBindingInfo → List (Nat × DxvkBindingMapping)
  | _, _, [] => []
  | j, cid, b :: rest =>
    (b.resourceBinding, ⟨i, j, cid⟩) :: recordSet i (j + 1) (cid + 1) rest

/-- Entries inserted into `m_mapping` over the whole constructor run, in
iteration order (set 0, then set 1, then set 2; `constId` keeps running
across sets). -/
def recordList (l : DxvkBindingLayout) : List (Nat × DxvkBindingMapping) :=
  recordSet 0 0 0 l.set0
    ++ recordSet 1 0 l.set0.length l.set1
    ++ recordSet 2 0 (l.set0.length + l.set1.length) l.set2

/-- Key membership test of the association-list model of
`std::unordered_map<uint32_t, DxvkBindingMapping>`. -/
def containsKey : List (Nat × DxvkBindingMapping) → Nat → Bool
  | [], _ => false
  | e :: rest, k => if e.1 = k then true else containsKey rest k

/-- Model of `std::unordered_map::insert`: inserts only when the key is
absent (`insert` never overwrites an existing entry). -/
def insertMapping (m : List (Nat × DxvkBindingMapping)) (k : Nat) (v : DxvkBindingMapping) :
    List (Nat × DxvkBindingMapping) :=
  if containsKey m k then m else m ++ [(k, v)]

/-- Folds `insertMapping` over a record list; the sequence of
`m_mapping.insert` calls executed by the constructor. -/
def insertAll : List (Nat × DxvkBindingMapping) → List (Nat × DxvkBindingMapping) →
    List (Nat × DxvkBindingMapping)
  | m, [] => m
  | m, (k, v) :: rest => insertAll (insertMapping m k v) rest

/-- The `m_mapping` table built by the `DxvkBindingLayoutObjects`
constructor for a given layout. -/
def buildMapping (l : DxvkBindingLayout) : List (Nat × DxvkBindingMapping) :=
  insertAll [] (recordList l)

/-- Model of `std::unordered_map::find`: first entry with the key. -/
def lookupList : List (Nat × DxvkBindingMapping) → Nat → Option DxvkBindingMapping
  | [], _ => none
  | e :: rest, k => if e.1 = k then some e.2 else lookupList rest k

/-- Embedding of `DxvkBindingLayoutObjects::lookupBinding`
(dxvk_pipelayout.h, lines 260-267). -/
def lookupBinding (l : DxvkBindingLayout) (slot : Nat) : Option DxvkBindingMapping :=
  lookupList (buildMapping l) slot

/-- Combines two optional lookup results, keeping the first hit; used to
state how `std::unordered_map::find` relates to the insertion sequence. -/
def firstSome (a b : Option DxvkBindingMapping) : Option DxvkBindingMapping :=
  match a with
  | some x => some x
  | none => b

/-- Mutating operations on a `DxvkBindingLayout` that build its binding
sets: `DxvkBindingLayout::addBinding` and `DxvkBindingLayout::merge`. -/
inductive LayoutOp where
  | add (b : DxvkBindingInfo)
  | mergeWith (other : DxvkBindingLayout)
deriving Repr

/-- Applies one layout-building operation. -/
def applyOp (l : DxvkBindingLayout) : LayoutOp → DxvkBindingLayout
  | .add b => l.addBinding b
  | .mergeWith other => l.merge other

/-- Two bindings of one set are distinct in the sense of the set
invariant: if they agree on descriptor type, resource slot and view type,
then they differ in fragment-stage presence. -/
def distinctBinding (a b : DxvkBindingInfo) : Prop :=
  a.descriptorType = b.descriptorType →
  a.resourceBinding = b.resourceBinding →
  a.viewType = b.viewType →
  a.stages &&& VK_SHADER_STAGE_FRAGMENT_BIT ≠ b.stages &&& VK_SHADER_STAGE_FRAGMENT_BIT

/-- One set holds no pair of merge candidates. -/
def noMergeCandidates (xs : List DxvkBindingInfo) : Prop :=
  xs.Pairwise distinctBinding

/-- The per-set invariant of `DxvkBindingLayout`, over all three sets. -/
def layoutInvariant (l : DxvkBindingLayout) : Prop :=
  noMergeCandidates l.set0 ∧ noMergeCandidates l.set1 ∧ noMergeCandidates l.set2

/-- Model of a shader: an identity (standing for the `Rc<DxvkShader>`
pointer) plus its reflected binding layout (`getBindings`). -/
structure Shader where
  sid      : Nat
  bindings : DxvkBindingLayout
deriving DecidableEq, Repr

/-- Embedding of `struct DxvkComputePipelineShaders`. -/
structure DxvkComputePipelineShaders where
  cs : Option Shader
deriving DecidableEq, Repr

/-- Embedding of `struct DxvkGraphicsPipelineShaders`: the five optional
stage shaders. -/
structure DxvkGraphicsPipelineShaders where
  vs  : Option Shader
  tcs : Option Shader
  tes : Option Shader
  gs  : Option Shader
  fs  : Option Shader
deriving DecidableEq, Repr

/-- Identity key of a graphics shader combination: the five stage shader
identities (pipeline caches compare shader pointers, not contents). -/
def gfxKey (sh : DxvkGraphicsPipelineShaders) :
    Option Nat × Option Nat × Option Nat × Option Nat × Option Nat :=
  (sh.vs.map Shader.sid, sh.tcs.map Shader.sid, sh.tes.map Shader.sid,
   sh.gs.map Shader.sid, sh.fs.map Shader.sid)

/-- Cache-entry lookup for the compute-pipeline map, keyed by the compute
shader identity; value is (pipeline id, layout-objects id). -/
def lookupCompute : List (Nat × Nat × Nat) → Nat → Option (Nat × Nat)
  | [], _ => none
  | e :: rest, k => if e.1 = k then some e.2 else lookupCompute rest k

/-- Cache-entry lookup for the graphics-pipeline map, keyed by the
five-stage identity tuple; value is (pipeline id, layout-objects id). -/
def lookupGfx :
    List ((Option Nat × Option Nat × Option Nat × Option Nat × Option Nat) × Nat × Nat) →
    (Option Nat × Option Nat × Option Nat × Option Nat × Option Nat) → Option (Nat × Nat)
  | [], _ => none
  | e :: rest, k => if e.1 = k then some e.2 else lookupGfx rest k

/-- Cache-entry lookup for the layout-objects map
(`m_pipelineLayouts`), keyed by `DxvkBindingLayout` structural equality
(`DxvkBindingLayout::eq`); value is the layout-objects instance id. -/
def lookupLayout : List (DxvkBindingLayout × Nat) → DxvkBindingLayout → Option Nat
  | [], _ => none
  | e :: rest, k => if e.1.eqb k then some e.2 else lookupLayout rest k

/-- State of `DxvkPipelineManager`: the three caches plus fresh-id
counters standing for the addresses of newly constructed objects. -/
structure PipelineManagerState where
  computePipelines  : List (Nat × Nat × Nat)
  graphicsPipelines :
    List ((Option Nat × Option Nat × Option Nat × Option Nat × Option Nat) × Nat × Nat)
  pipelineLayouts   : List (DxvkBindingLayout × Nat)
  nextPipe          : Nat
  nextLayout        : Nat
deriving Repr

/-- The pipeline manager's state right after construction: all caches
empty. -/
def initialManager : PipelineManagerState :=
  ⟨[], [], [], 0, 0⟩

/-- Embedding of `DxvkPipelineManager::createPipelineLayout`
(dxvk_pipemanager.cpp, lines 108-119): look up by layout structural
equality, emplace a fresh layout-objects instance on a miss.  Returns the
layout-objects instance id and the new state. -/
def createPipelineLayout (layout : DxvkBindingLayout) (s : PipelineManagerState) :
    Nat × PipelineManagerState :=
  match lookupLayout s.pipelineLayouts layout with
  | some lid => (lid, s)
  | none =>
    (s.nextLayout,
     { s with pipelineLayouts := s.pipelineLayouts ++ [(layout, s.nextLayout)],
              nextLayout := s.nextLayout + 1 })

/-- Embedding of `DxvkPipelineManager::createComputePipeline`
(dxvk_pipemanager.cpp, lines 24-42): null compute shader returns null
immediately; otherwise look up by shader identity, and on a miss resolve
the layout and emplace a fresh pipeline.  Returns the (pipeline id,
layout-objects id) pair, or `none` for the null result. -/
def createComputePipeline (sh : DxvkComputePipelineShaders) (s : PipelineManagerState) :
    Option (Nat × Nat) × PipelineManagerState :=
  match sh.cs with
  | none => (none, s)
  | some c =>
    match lookupCompute s.computePipelines c.sid with
    | some e => (some e, s)
    | none =>
      let r := createPipelineLayout c.bindings s
      let pid := r.2.nextPipe
      (some (pid, r.1),
       { r.2 with computePipelines := r.2.computePipelines ++ [(c.sid, pid, r.1)],
                  nextPipe := pid + 1 })

/-- The merged binding layout built by
`DxvkPipelineManager::createGraphicsPipeline` (dxvk_pipemanager.cpp,
lines 56-69): merge each present stage in the fixed order vertex,
tess-control, tess-eval, geometry, fragment into a fresh layout. -/
def mergedLayoutOf (sh : DxvkGraphicsPipelineShaders) : DxvkBindingLayout :=
  let m0 := match sh.vs with
    | none => DxvkBindingLayout.empty
    | some v => DxvkBindingLayout.empty.merge v.bindings
  let m1 := match sh.tcs with | none => m0 | some t => m0.merge t.bindings
  let m2 := match sh.tes with | none => m1 | some t => m1.merge t.bindings
  let m3 := match sh.gs with | none => m2 | some g => m2.merge g.bindings
  match sh.fs with | none => m3 | some f => m3.merge f.bindings

/-- Embedding of `DxvkPipelineManager::createGraphicsPipeline`
(dxvk_pipemanager.cpp, lines 45-78): null vertex shader returns null
immediately; otherwise look up by the five-stage identity tuple, and on a
miss merge the per-stage layouts, resolve the layout objects and emplace
a fresh pipeline. -/
def createGraphicsPipeline (sh : DxvkGraphicsPipelineShaders) (s : PipelineManagerState) :
    Option (Nat × Nat) × PipelineManagerState :=
  match sh.vs with
  | none => (none, s)
  | some _ =>
    match lookupGfx s.graphicsPipelines (gfxKey sh) with
    | some e => (some e, s)
    | none =>
      let ml := mergedLayoutOf sh
      let r := createPipelineLayout ml s
      let pid := r.2.nextPipe
      (some (pid, r.1),
       { r.2 with graphicsPipelines := r.2.graphicsPipelines ++ [(gfxKey sh, pid, r.1)],
                  nextPipe := pid + 1 })

/-! Helper lemmas. -/

/-- Bitwise AND distributes over bitwise OR on `Nat`. -/
theorem lor_land_distrib (a b c : Nat) : (a ||| b) &&& c = (a &&& c) ||| (b &&& c) :=
  Nat.eq_of_testBit_eq fun i => by
    simp [Nat.testBit_land, Nat.testBit_lor, Bool.and_or_distrib_right]

/-- Characterization of `DxvkBindingInfo::canMerge`. -/
theorem canMerge_eq_true_iff (a b : DxvkBindingInfo) :
    a.canMerge b = true ↔
      a.stages &&& VK_SHADER_STAGE_FRAGMENT_BIT = b.stages &&& VK_SHADER_STAGE_FRAGMENT_BIT
      ∧ a.descriptorType = b.descriptorType ∧ a.resourceBinding = b.resourceBinding
      ∧ a.viewType = b.viewType := by
  unfold DxvkBindingInfo.canMerge
  by_cases h : a.stages &&& VK_SHADER_STAGE_FRAGMENT_BIT
      = b.stages &&& VK_SHADER_STAGE_FRAGMENT_BIT <;> simp [h]

/-- Merging two merge-compatible bindings preserves fragment-stage
presence. -/
theorem merge_frag (a b : DxvkBindingInfo) (h : a.canMerge b = true) :
    (a.merge b).stages &&& VK_SHADER_STAGE_FRAGMENT_BIT
      = a.stages &&& VK_SHADER_STAGE_FRAGMENT_BIT := by
  obtain ⟨hf, -, -, -⟩ := (canMerge_eq_true_iff a b).mp h
  show (a.stages ||| b.stages) &&& _ = _
  rw [lor_land_distrib, ← hf, Nat.or_self]

/-- Merging into a binding does not change which bindings it can merge
with. -/
theorem canMerge_merge_left (a b x : DxvkBindingInfo) (h : a.canMerge b = true) :
    (a.merge b).canMerge x = a.canMerge x := by
  unfold DxvkBindingInfo.canMerge
  rw [merge_frag a b h]
  rfl

/-- Merging into a binding does not change which bindings can merge with
it. -/
theorem canMerge_merge_right (x a b : DxvkBindingInfo) (h : a.canMerge b = true) :
    x.canMerge (a.merge b) = x.canMerge a := by
  unfold DxvkBindingInfo.canMerge
  rw [merge_frag a b h]
  rfl

/-- Inserting a binding that cannot merge with `x` keeps the whole set
unable to merge with `x`. -/
theorem addToList_no_candidates (x : DxvkBindingInfo) :
    ∀ (xs : List DxvkBindingInfo) (b : DxvkBindingInfo),
      (∀ y ∈ xs, x.canMerge y = false) → x.canMerge b = false →
      ∀ y ∈ DxvkBindingLayout.addBindingToList xs b, x.canMerge y = false
  | [], b, _, hb => by
    intro y hy
    simp [DxvkBindingLayout.addBindingToList] at hy
    rw [hy]; exact hb
  | z :: zs, b, hxs, hb => by
    unfold DxvkBindingLayout.addBindingToList
    by_cases hz : z.canMerge b
    · rw [if_pos hz]
      intro y hy
      rcases List.mem_cons.mp hy with rfl | hy'
      · rw [canMerge_merge_right x z b hz]
        exact hxs z (List.mem_cons_self _ _)
      · exact hxs y (List.mem_cons_of_mem _ hy')
    · rw [if_neg hz]
      intro y hy
      rcases List.mem_cons.mp hy with rfl | hy'
      · exact hxs y (List.mem_cons_self _ _)
      · exact addToList_no_candidates x zs b
          (fun w hw => hxs w (List.mem_cons_of_mem _ hw)) hb y hy'

/-- The `addBinding` loop body preserves the absence of merge candidates
within a set. -/
theorem addBindingToList_pairwise (xs : List DxvkBindingInfo) (b : DxvkBindingInfo)
    (h : xs.Pairwise (fun u v => u.canMerge v = false)) :
    (DxvkBindingLayout.addBindingToList xs b).Pairwise
      (fun u v => u.canMerge v = false) := by
  induction xs with
  | nil => simp [DxvkBindingLayout.addBindingToList]
  | cons z zs ih =>
    rw [List.pairwise_cons] at h
    obtain ⟨hz, hzs⟩ := h
    unfold DxvkBindingLayout.addBindingToList
    by_cases hm : z.canMerge b
    · rw [if_pos hm, List.pairwise_cons]
      refine ⟨fun y hy => ?_, hzs⟩
      rw [canMerge_merge_left z b y hm]
      exact hz y hy
    · rw [if_neg hm, List.pairwise_cons]
      exact ⟨addToList_no_candidates z zs b hz (by simpa using hm), ih hzs⟩

/-- The invariant wording of the claim coincides with
`canMerge` returning false. -/
theorem distinct_iff (a b : DxvkBindingInfo) :
    distinctBinding a b ↔ a.canMerge b = false := by
  unfold distinctBinding
  rw [show (a.canMerge b = false) ↔ ¬(a.canMerge b = true) by simp]
  rw [canMerge_eq_true_iff]
  tauto

/-- `addBindingToList` preserves the per-set invariant. -/
theorem addBindingToList_pairwise_d (xs : List DxvkBindingInfo) (b : DxvkBindingInfo)
    (h : xs.Pairwise distinctBinding) :
    (DxvkBindingLayout.addBindingToList xs b).Pairwise distinctBinding := by
  have h1 := addBindingToList_pairwise xs b
    (h.imp fun hd => (distinct_iff _ _).mp hd)
  exact h1.imp fun hc => (distinct_iff _ _).mpr hc

/-- `DxvkBindingLayout::addBinding` preserves the layout invariant. -/
theorem addBinding_invariant (l : DxvkBindingLayout) (b : DxvkBindingInfo)
    (h : layoutInvariant l) : layoutInvariant (l.addBinding b) := by
  obtain ⟨h0, h1, h2⟩ := h
  unfold DxvkBindingLayout.addBinding
  split
  · exact ⟨addBindingToList_pairwise_d _ _ h0, h1, h2⟩
  · exact ⟨h0, addBindingToList_pairwise_d _ _ h1, h2⟩
  · exact ⟨h0, h1, addBindingToList_pairwise_d _ _ h2⟩

/-- Folding `addBinding` preserves the layout invariant. -/
theorem addAll_invariant (bs : List DxvkBindingInfo) (l : DxvkBindingLayout)
    (h : layoutInvariant l) : layoutInvariant (l.addAll bs) := by
  induction bs generalizing l with
  | nil => exact h
  | cons b rest ih => exact ih _ (addBinding_invariant l b h)

/-- `addPushConstantRange` does not touch the binding sets. -/
theorem pushConst_invariant (l : DxvkBindingLayout) (r : VkPushConstantRange)
    (h : layoutInvariant l) : layoutInvariant (l.addPushConstantRange r) := h

/-- `DxvkBindingLayout::merge` preserves the layout invariant. -/
theorem merge_invariant (l other : DxvkBindingLayout) (h : layoutInvariant l) :
    layoutInvariant (l.merge other) :=
  pushConst_invariant _ _ (addAll_invariant _ _ (addAll_invariant _ _
    (addAll_invariant _ _ h)))

/-- Every layout-building operation preserves the layout invariant. -/
theorem applyOp_invariant (l : DxvkBindingLayout) (op : LayoutOp)
    (h : layoutInvariant l) : layoutInvariant (applyOp l op) := by
  cases op with
  | add b => exact addBinding_invariant l b h
  | mergeWith other => exact merge_invariant l other h

/-- One `addPushConstantRange` step from a state with offset `0` and a
non-wrapping size, given a non-wrapping input range. -/
theorem addPushConstantRange_spec (l : DxvkBindingLayout) (r : VkPushConstantRange)
    (h0 : l.pushConst.offset = 0) (h1 : l.pushConst.size < U32)
    (hr : r.offset + r.size < U32) :
    (l.addPushConstantRange r).pushConst
      = ⟨l.pushConst.stageFlags ||| r.stageFlags, 0,
         max l.pushConst.size (r.offset + r.size)⟩ := by
  simp only [DxvkBindingLayout.addPushConstantRange, h0]
  have e1 : (0 + l.pushConst.size) % U32 = l.pushConst.size := by
    rw [Nat.zero_add, Nat.mod_eq_of_lt h1]
  have e2 : (r.offset + r.size) % U32 = r.offset + r.size := Nat.mod_eq_of_lt hr
  rw [e1, e2, Nat.zero_min, Nat.sub_zero, Nat.add_mod_right,
    Nat.mod_eq_of_lt (max_lt h1 hr)]

/-- Folding `addPushConstantRange` over non-wrapping ranges: the offset
stays `0`, the stage mask accumulates by OR, and the size accumulates as
the maximum range end. -/
theorem pushConst_foldl_spec (rs : List VkPushConstantRange)
    (h : ∀ r ∈ rs, r.offset + r.size < U32) (l : DxvkBindingLayout)
    (h0 : l.pushConst.offset = 0) (h1 : l.pushConst.size < U32) :
    (rs.foldl DxvkBindingLayout.addPushConstantRange l).pushConst.offset = 0
    ∧ (rs.foldl DxvkBindingLayout.addPushConstantRange l).pushConst.stageFlags
        = rs.foldl (fun acc r => acc ||| r.stageFlags) l.pushConst.stageFlags
    ∧ (rs.foldl DxvkBindingLayout.addPushConstantRange l).pushConst.size
        = rs.foldl (fun acc r => max acc (r.offset + r.size)) l.pushConst.size
    ∧ (rs.foldl DxvkBindingLayout.addPushConstantRange l).pushConst.size < U32 := by
  induction rs generalizing l with
  | nil => exact ⟨h0, rfl, rfl, h1⟩
  | cons r rest ih =>
    have hr : r.offset + r.size < U32 := h r (by simp)
    have hstep := addPushConstantRange_spec l r h0 h1 hr
    have hoff : (l.addPushConstantRange r).pushConst.offset = 0 := by rw [hstep]
    have hsz : (l.addPushConstantRange r).pushConst.size
        = max l.pushConst.size (r.offset + r.size) := by rw [hstep]
    have hst : (l.addPushConstantRange r).pushConst.stageFlags
        = l.pushConst.stageFlags ||| r.stageFlags := by rw [hstep]
    obtain ⟨o, s, z, w⟩ := ih (fun x hx => h x (by simp [hx]))
      (l.addPushConstantRange r) hoff (by rw [hsz]; exact max_lt h1 hr)
    refine ⟨o, ?_, ?_, w⟩
    · rw [List.foldl_cons, s, hst, List.foldl_cons]
    · rw [List.foldl_cons, z, hsz, List.foldl_cons]

/-- Rewriting slots of one descriptor type leaves the count of any other
type unchanged. -/
theorem count_fold_map_replace (l : List DxvkDescriptorSlot) (t old new : Nat)
    (h1 : t ≠ old) (h2 : t ≠ new) (n : Nat) :
    ((l.map fun s => if s.type = old then { s with type := new } else s).foldl
        (fun count s => count + if s.type = t then 1 else 0) n)
      = l.foldl (fun count s => count + if s.type = t then 1 else 0) n := by
  induction l generalizing n with
  | nil => rfl
  | cons a rest ih =>
    by_cases ha : a.type = old
    · simp only [List.map_cons, List.foldl_cons]
      rw [if_pos ha]
      have hx : ¬(({ a with type := new } : DxvkDescriptorSlot).type = t) := by
        simp [Ne.symm h2]
      have hy : ¬(a.type = t) := by rw [ha]; exact Ne.symm h1
      rw [if_neg hx, if_neg hy]
      simp only [Nat.add_zero]
      exact ih n
    · simp only [List.map_cons, List.foldl_cons]
      rw [if_neg ha]
      exact ih _

/-- Elementwise `DxvkBindingInfo::eq` coincides with list equality. -/
theorem listEqb_iff : (xs ys : List DxvkBindingInfo) →
    (DxvkBindingLayout.listEqb xs ys = true ↔ xs = ys)
  | [], [] => by simp [DxvkBindingLayout.listEqb]
  | [], _ :: _ => by simp [DxvkBindingLayout.listEqb]
  | _ :: _, [] => by simp [DxvkBindingLayout.listEqb]
  | x :: xs, y :: ys => by
    have hinfo : x.eqb y = true ↔ x = y := by
      cases x; cases y; simp [DxvkBindingInfo.eqb, DxvkBindingInfo.mk.injEq]
    simp [DxvkBindingLayout.listEqb, hinfo, listEqb_iff xs ys]

/-- `DxvkBindingLayout::eq` is structural equality of the embedded
layout value. -/
theorem bindingLayout_eqb_iff (a b : DxvkBindingLayout) : a.eqb b = true ↔ a = b := by
  obtain ⟨a0, a1, a2, apc⟩ := a
  obtain ⟨b0, b1, b2, bpc⟩ := b
  obtain ⟨af, ao, az⟩ := apc
  obtain ⟨bf, bo, bz⟩ := bpc
  simp only [DxvkBindingLayout.eqb, Bool.and_eq_true, decide_eq_true_eq,
    listEqb_iff, DxvkBindingLayout.mk.injEq, VkPushConstantRange.mk.injEq]
  constructor
  · rintro ⟨⟨⟨⟨-, h0⟩, h1⟩, h2⟩, hpc⟩
    exact ⟨h0, h1, h2, hpc⟩
  · rintro ⟨h0, h1, h2, hpc⟩
    subst h0; subst h1; subst h2
    exact ⟨⟨⟨⟨⟨rfl, rfl, rfl⟩, rfl⟩, rfl⟩, rfl⟩, hpc⟩

/-- Every run of the legacy constructor either succeeds or has released
exactly what it created. -/
theorem legacyConstruct_cases (bindingCount maxBindings : Nat) (oracle : List Bool) :
    (legacyConstruct bindingCount maxBindings oracle).ok = true
    ∨ (legacyConstruct bindingCount maxBindings oracle).created
        = (legacyConstruct bindingCount maxBindings oracle).released := by
  unfold legacyConstruct
  split_ifs <;> (try simp) <;> split_ifs <;> simp

/-- Association-list lookup distributes over append, first hit wins. -/
theorem lookupList_append (m1 m2 : List (Nat × DxvkBindingMapping)) (k : Nat) :
    lookupList (m1 ++ m2) k = firstSome (lookupList m1 k) (lookupList m2 k) := by
  induction m1 with
  | nil => simp [lookupList, firstSome]
  | cons e rest ih =>
    by_cases h : e.1 = k <;> simp [lookupList, h, ih, firstSome]

/-- A contained key has a lookup result. -/
theorem containsKey_true_lookup (m : List (Nat × DxvkBindingMapping)) (k : Nat)
    (h : containsKey m k = true) : ∃ v, lookupList m k = some v := by
  induction m with
  | nil => cases h
  | cons e rest ih =>
    unfold containsKey at h
    unfold lookupList
    by_cases he : e.1 = k
    · rw [if_pos he]; exact ⟨e.2, rfl⟩
    · rw [if_neg he] at h ⊢; exact ih h

/-- Lookup after an insert-if-absent: the existing entry still wins. -/
theorem lookupList_insertMapping (m : List (Nat × DxvkBindingMapping)) (k : Nat)
    (v : DxvkBindingMapping) (q : Nat) :
    lookupList (insertMapping m k v) q
      = firstSome (lookupList m q) (if k = q then some v else none) := by
  unfold insertMapping
  by_cases hc : containsKey m k
  · rw [if_pos hc]
    by_cases hkq : k = q
    · subst hkq
      obtain ⟨w, hw⟩ := containsKey_true_lookup m k hc
      rw [hw, if_pos rfl]
      rfl
    · rw [if_neg hkq]
      cases lookupList m q <;> rfl
  · rw [if_neg hc, lookupList_append]
    rfl

/-- Lookup in the table built by a sequence of insert-if-absent calls
equals the first matching entry of the insertion sequence. -/
theorem lookupList_insertAll (entries m : List (Nat × DxvkBindingMapping)) (q : Nat) :
    lookupList (insertAll m entries) q
      = firstSome (lookupList m q) (lookupList entries q) := by
  induction entries generalizing m with
  | nil =>
    show lookupList m q = firstSome (lookupList m q) (lookupList [] q)
    cases lookupList m q <;> rfl
  | cons e rest ih =>
    obtain ⟨k, v⟩ := e
    unfold insertAll
    rw [ih, lookupList_insertMapping]
    cases h : lookupList m q <;> by_cases hkq : k = q <;>
      simp [firstSome, lookupList, hkq]

/-- `lookupBinding` resolves a slot to the first entry of the
construction-ordered record list. -/
theorem lookupBinding_eq_recordList (l : DxvkBindingLayout) (slot : Nat) :
    lookupBinding l slot = lookupList (recordList l) slot := by
  unfold lookupBinding buildMapping
  rw [lookupList_insertAll]
  rfl

/-- A lookup misses exactly when no entry has the key. -/
theorem lookupList_eq_none_iff (m : List (Nat × DxvkBindingMapping)) (k : Nat) :
    lookupList m k = none ↔ ∀ e ∈ m, e.1 ≠ k := by
  induction m with
  | nil => simp [lookupList]
  | cons e rest ih =>
    by_cases h : e.1 = k <;> simp [lookupList, h, ih]

/-- The keys of a set's record entries are the bindings' resource slots. -/
theorem recordSet_forall (i : Nat) (bs : List DxvkBindingInfo) :
    ∀ (j cid slot : Nat),
      ((∀ e ∈ recordSet i j cid bs, e.1 ≠ slot) ↔
        ∀ b ∈ bs, b.resourceBinding ≠ slot) := by
  induction bs with
  | nil => intro j cid slot; simp [recordSet]
  | cons b rest ih =>
    intro j cid slot
    simp only [recordSet]
    constructor
    · intro h w hw
      rcases List.mem_cons.mp hw with rfl | hw'
      · exact h (w.resourceBinding, ⟨i, j, cid⟩) (List.mem_cons_self _ _)
      · exact (ih (j+1) (cid+1) slot).mp
          (fun e he => h e (List.mem_cons_of_mem _ he)) w hw'
    · intro h e he
      rcases List.mem_cons.mp he with rfl | he'
      · exact h b (List.mem_cons_self _ _)
      · exact (ih (j+1) (cid+1) slot).mpr
          (fun w hw => h w (List.mem_cons_of_mem _ hw)) e he'

/-! Claim theorems. -/

/-- C1 (amended): the legacy `DxvkPipelineLayout` constructor releases
every native object it created before a creation failure propagates.  The
original claim also asserted this of `DxvkBindingLayoutObjects`, which the
code refutes (see the counterexample): that constructor throws without
destroying the set layouts and update templates created by earlier loop
iterations. -/
theorem legacy_pipelineLayout_releases_before_throw (bindingCount maxBindings : Nat)
    (oracle : List Bool)
    (hfail : (legacyConstruct bindingCount maxBindings oracle).ok = false) :
    ∀ h ∈ (legacyConstruct bindingCount maxBindings oracle).created,
      h ∈ (legacyConstruct bindingCount maxBindings oracle).released := by
  rcases legacyConstruct_cases bindingCount maxBindings oracle with hok | heq
  · rw [hok] at hfail; cases hfail
  · intro x hx; rw [heq] at hx; exact hx

/-- Witness for C1 (amended): one binding, the pipeline-layout creation
fails; the descriptor-set layout was created and is released. -/
theorem legacy_pipelineLayout_releases_before_throw_witness :
    (legacyConstruct 1 128 [true, false]).ok = false
    ∧ ∀ h ∈ (legacyConstruct 1 128 [true, false]).created,
        h ∈ (legacyConstruct 1 128 [true, false]).released :=
  ⟨by decide, legacy_pipelineLayout_releases_before_throw 1 128 [true, false] (by decide)⟩

/-- C1 counterexample: in the `DxvkBindingLayoutObjects` constructor, if
the descriptor-set layout for set 0 is created and the creation for set 1
fails, construction aborts with the set-0 layout created but never
released — the claimed release of every already-created native object
does not happen. -/
theorem bindingLayoutObjects_leak_counterexample :
    (modernConstruct DxvkBindingLayout.empty [true, false]).ok = false
    ∧ NativeHandle.setLayout 0
        ∈ (modernConstruct DxvkBindingLayout.empty [true, false]).created
    ∧ NativeHandle.setLayout 0
        ∉ (modernConstruct DxvkBindingLayout.empty [true, false]).released := by
  decide

/-- C2: `computeSetIndex` is a pure function of the binding's fields and
returns 0 for compute-stage bindings; otherwise 1 for fragment-stage
uniform- or storage-buffer bindings and 0 for other fragment-stage
bindings; otherwise 2. -/
theorem computeSetIndex_placement (b : DxvkBindingInfo) :
    b.computeSetIndex =
      (if b.stages &&& VK_SHADER_STAGE_COMPUTE_BIT ≠ 0 then 0
       else if b.stages &&& VK_SHADER_STAGE_FRAGMENT_BIT ≠ 0 then
         if b.descriptorType = VK_DESCRIPTOR_TYPE_UNIFORM_BUFFER
          ∨ b.descriptorType = VK_DESCRIPTOR_TYPE_STORAGE_BUFFER then 1 else 0
       else 2) := rfl

/-- C3: `canMerge` returns true exactly when the two bindings agree on
fragment-stage presence, descriptor type, resource binding slot and view
type; `merge` ORs the stage and access masks and leaves every other field
unchanged. -/
theorem canMerge_iff_and_merge_or_masks (a b : DxvkBindingInfo) :
    (a.canMerge b = true ↔
      a.stages &&& VK_SHADER_STAGE_FRAGMENT_BIT = b.stages &&& VK_SHADER_STAGE_FRAGMENT_BIT
      ∧ a.descriptorType = b.descriptorType
      ∧ a.resourceBinding = b.resourceBinding
      ∧ a.viewType = b.viewType)
    ∧ a.merge b = ⟨a.descriptorType, a.resourceBinding, a.viewType,
                   a.stages ||| b.stages, a.access ||| b.access⟩ :=
  ⟨canMerge_eq_true_iff a b, rfl⟩

/-- C4 counterexample: a single call with range `{stage 1, offset 16,
size 16}` on a fresh layout stores `{1, 0, 32}`, not the claimed union of
the added ranges `{1, 16, 16}` — the fresh layout's initial offset 0
participates in the minimum. -/
theorem pushConstantRange_union_counterexample :
    (DxvkBindingLayout.empty.addPushConstantRange ⟨1, 16, 16⟩).pushConst
        = ⟨1, 0, 32⟩
    ∧ (⟨1, 0, 32⟩ : VkPushConstantRange) ≠ ⟨1, 16, 16⟩ := by
  decide

/-- C4 (amended): for any sequence of non-wrapping ranges added to a
fresh layout, the stored stage mask is the OR of the added stage masks,
the stored offset is always 0 (the fresh layout's empty range at offset 0
participates in the union, so the stored offset is the minimum of 0 and
the added offsets), the stored end equals the maximum added end (0 when
none), and adding a further range never shrinks the stored size. -/
theorem pushConstantRange_union_amended (rs : List VkPushConstantRange)
    (h : ∀ r ∈ rs, r.offset + r.size < U32) :
    (rs.foldl DxvkBindingLayout.addPushConstantRange
        DxvkBindingLayout.empty).pushConst.stageFlags
      = rs.foldl (fun acc r => acc ||| r.stageFlags) 0
    ∧ (rs.foldl DxvkBindingLayout.addPushConstantRange
        DxvkBindingLayout.empty).pushConst.offset = 0
    ∧ (rs.foldl DxvkBindingLayout.addPushConstantRange
          DxvkBindingLayout.empty).pushConst.offset
        + (rs.foldl DxvkBindingLayout.addPushConstantRange
            DxvkBindingLayout.empty).pushConst.size
      = rs.foldl (fun acc r => max acc (r.offset + r.size)) 0
    ∧ ∀ r : VkPushConstantRange, r.offset + r.size < U32 →
        (rs.foldl DxvkBindingLayout.addPushConstantRange
            DxvkBindingLayout.empty).pushConst.size
          ≤ ((rs.foldl DxvkBindingLayout.addPushConstantRange
              DxvkBindingLayout.empty).addPushConstantRange r).pushConst.size := by
  obtain ⟨o, s, z, w⟩ := pushConst_foldl_spec rs h DxvkBindingLayout.empty rfl (by decide)
  refine ⟨s, o, ?_, ?_⟩
  · rw [o, Nat.zero_add, z]
    rfl
  · intro r hr
    have hstep := addPushConstantRange_spec _ r o w hr
    have hsz : ((rs.foldl DxvkBindingLayout.addPushConstantRange
        DxvkBindingLayout.empty).addPushConstantRange r).pushConst.size
        = max (rs.foldl DxvkBindingLayout.addPushConstantRange
            DxvkBindingLayout.empty).pushConst.size (r.offset + r.size) := by
      rw [hstep]
    rw [hsz]
    exact le_max_left _ _

/-- Witness for C4 (amended) at the spec's example ranges `{offset 0,
size 16}` and `{offset 16, size 16}`: the stored range ends at byte 32. -/
theorem pushConstantRange_union_amended_witness :
    (∀ r ∈ [(⟨1, 0, 16⟩ : VkPushConstantRange), ⟨2, 16, 16⟩],
        r.offset + r.size < U32)
    ∧ ([(⟨1, 0, 16⟩ : VkPushConstantRange), ⟨2, 16, 16⟩].foldl
          DxvkBindingLayout.addPushConstantRange
          DxvkBindingLayout.empty).pushConst.offset
        + ([(⟨1, 0, 16⟩ : VkPushConstantRange), ⟨2, 16, 16⟩].foldl
            DxvkBindingLayout.addPushConstantRange
            DxvkBindingLayout.empty).pushConst.size
      = [(⟨1, 0, 16⟩ : VkPushConstantRange), ⟨2, 16, 16⟩].foldl
          (fun acc r => max acc (r.offset + r.size)) 0 :=
  ⟨by decide, (pushConstantRange_union_amended _ (by decide)).2.2.1⟩

/-- C5: `makeDescriptorsDynamic` rewrites every uniform-buffer slot to
the dynamic uniform-buffer type exactly when the uniform-buffer count is
within the `uniformBuffers` limit (otherwise it rewrites nothing), and it
never converts storage-buffer slots regardless of the `storageBuffers`
parameter. -/
theorem makeDescriptorsDynamic_uniform_only (m : DxvkDescriptorSlotMapping)
    (ub sb : Nat) :
    ((m.makeDescriptorsDynamic ub sb).descriptorSlots
        = m.descriptorSlots.map (fun s =>
            if m.countDescriptors VK_DESCRIPTOR_TYPE_UNIFORM_BUFFER ≤ ub
               ∧ s.type = VK_DESCRIPTOR_TYPE_UNIFORM_BUFFER
            then { s with type := VK_DESCRIPTOR_TYPE_UNIFORM_BUFFER_DYNAMIC } else s))
    ∧ (m.makeDescriptorsDynamic ub sb).countDescriptors VK_DESCRIPTOR_TYPE_STORAGE_BUFFER
        = m.countDescriptors VK_DESCRIPTOR_TYPE_STORAGE_BUFFER := by
  unfold DxvkDescriptorSlotMapping.makeDescriptorsDynamic
  by_cases hc : m.countDescriptors VK_DESCRIPTOR_TYPE_UNIFORM_BUFFER ≤ ub
  · rw [if_pos hc]
    constructor
    · unfold DxvkDescriptorSlotMapping.replaceDescriptors
      exact List.map_congr_left (fun s _ => by
        by_cases h : s.type = VK_DESCRIPTOR_TYPE_UNIFORM_BUFFER <;> simp [h, hc])
    · unfold DxvkDescriptorSlotMapping.countDescriptors
        DxvkDescriptorSlotMapping.replaceDescriptors
      exact count_fold_map_replace m.descriptorSlots _ _ _ (by decide) (by decide) 0
  · rw [if_neg hc]
    constructor
    · refine Eq.symm ?_
      have he : m.descriptorSlots.map (fun s =>
          if m.countDescriptors VK_DESCRIPTOR_TYPE_UNIFORM_BUFFER ≤ ub
             ∧ s.type = VK_DESCRIPTOR_TYPE_UNIFORM_BUFFER
          then { s with type := VK_DESCRIPTOR_TYPE_UNIFORM_BUFFER_DYNAMIC } else s)
          = m.descriptorSlots.map (fun s => s) :=
        List.map_congr_left (fun s _ => by simp [hc])
      rw [he, List.map_id']
    · rfl

/-- C6: two graphics-pipeline creation calls from a fresh manager with
different shader-identity tuples whose merged binding layouts are
structurally equal (by `DxvkBindingLayout::eq`) produce two distinct
cached pipeline entries (pipeline ids 0 and 1, two cache entries) that
share one `DxvkBindingLayoutObjects` instance (both carry layout-objects
id 0, and the layout cache holds a single entry). -/
theorem bindingLayoutObjects_shared_across_pipelines
    (sh1 sh2 : DxvkGraphicsPipelineShaders) (v1 v2 : Shader)
    (h1 : sh1.vs = some v1) (h2 : sh2.vs = some v2)
    (hk : gfxKey sh1 ≠ gfxKey sh2)
    (hl : DxvkBindingLayout.eqb (mergedLayoutOf sh1) (mergedLayoutOf sh2) = true) :
    (createGraphicsPipeline sh1 initialManager).1 = some (0, 0)
    ∧ (createGraphicsPipeline sh2 (createGraphicsPipeline sh1 initialManager).2).1
        = some (1, 0)
    ∧ ((createGraphicsPipeline sh2
          (createGraphicsPipeline sh1 initialManager).2).2).graphicsPipelines.length = 2
    ∧ ((createGraphicsPipeline sh2
          (createGraphicsPipeline sh1 initialManager).2).2).pipelineLayouts.length = 1 := by
  have e1 : createGraphicsPipeline sh1 initialManager
      = (some (0, 0), ⟨[], [(gfxKey sh1, 0, 0)], [(mergedLayoutOf sh1, 0)], 1, 1⟩) := by
    simp [createGraphicsPipeline, h1, initialManager, lookupGfx, createPipelineLayout,
      lookupLayout]
  have hlb : (mergedLayoutOf sh1).eqb (mergedLayoutOf sh2) = true := hl
  have e2 : createGraphicsPipeline sh2
        (⟨[], [(gfxKey sh1, 0, 0)], [(mergedLayoutOf sh1, 0)], 1, 1⟩ : PipelineManagerState)
      = (some (1, 0),
         ⟨[], [(gfxKey sh1, 0, 0), (gfxKey sh2, 1, 0)], [(mergedLayoutOf sh1, 0)], 2, 1⟩) := by
    simp [createGraphicsPipeline, h2, lookupGfx, hk, createPipelineLayout, lookupLayout, hlb]
  rw [e1]
  rw [show (((some (0, 0) : Option (Nat × Nat)),
      (⟨[], [(gfxKey sh1, 0, 0)], [(mergedLayoutOf sh1, 0)], 1, 1⟩ : PipelineManagerState))).2
    = (⟨[], [(gfxKey sh1, 0, 0)], [(mergedLayoutOf sh1, 0)], 1, 1⟩ : PipelineManagerState)
    from rfl]
  rw [e2]
  exact ⟨rfl, rfl, rfl, rfl⟩

/-- Witness for C6: two single-stage shader sets with distinct vertex
shaders carrying equal (empty) binding layouts share layout-objects id 0
while receiving pipeline ids 0 and 1. -/
theorem bindingLayoutObjects_shared_across_pipelines_witness :
    gfxKey ⟨some ⟨0, DxvkBindingLayout.empty⟩, none, none, none, none⟩
        ≠ gfxKey ⟨some ⟨1, DxvkBindingLayout.empty⟩, none, none, none, none⟩
    ∧ (createGraphicsPipeline ⟨some ⟨0, DxvkBindingLayout.empty⟩, none, none, none, none⟩
        initialManager).1 = some (0, 0)
    ∧ (createGraphicsPipeline ⟨some ⟨1, DxvkBindingLayout.empty⟩, none, none, none, none⟩
        (createGraphicsPipeline ⟨some ⟨0, DxvkBindingLayout.empty⟩, none, none, none, none⟩
          initialManager).2).1 = some (1, 0) := by
  have h := bindingLayoutObjects_shared_across_pipelines
    ⟨some ⟨0, DxvkBindingLayout.empty⟩, none, none, none, none⟩
    ⟨some ⟨1, DxvkBindingLayout.empty⟩, none, none, none, none⟩
    ⟨0, DxvkBindingLayout.empty⟩ ⟨1, DxvkBindingLayout.empty⟩
    rfl rfl (by decide) (by decide)
  exact ⟨by decide, h.1, h.2.1⟩

/-- C7: `createComputePipeline` with no compute shader and
`createGraphicsPipeline` with no vertex shader both return null and leave
the manager state (all three caches) untouched. -/
theorem null_shader_creation_returns_null (csh : DxvkComputePipelineShaders)
    (gsh : DxvkGraphicsPipelineShaders) (s : PipelineManagerState)
    (hc : csh.cs = none) (hg : gsh.vs = none) :
    createComputePipeline csh s = (none, s)
    ∧ createGraphicsPipeline gsh s = (none, s) := by
  constructor
  · unfold createComputePipeline; rw [hc]
  · unfold createGraphicsPipeline; rw [hg]

/-- Witness for C7 at empty shader sets on the fresh manager state. -/
theorem null_shader_creation_returns_null_witness :
    createComputePipeline ⟨none⟩ initialManager = (none, initialManager)
    ∧ createGraphicsPipeline ⟨none, none, none, none, none⟩ initialManager
        = (none, initialManager) :=
  null_shader_creation_returns_null ⟨none⟩ ⟨none, none, none, none, none⟩
    initialManager rfl rfl

/-- C8: any layout built from a fresh `DxvkBindingLayout` by a sequence
of `addBinding` and `merge` operations satisfies the set invariant:
within each descriptor set, no two entries share the same (descriptor
type, resource binding slot, view type) triple unless they differ in
fragment-stage presence — merge candidates are merged eagerly on
insertion. -/
theorem bindingLayout_set_invariant (ops : List LayoutOp) :
    layoutInvariant (ops.foldl applyOp DxvkBindingLayout.empty) := by
  suffices hgen : ∀ l, layoutInvariant l → layoutInvariant (ops.foldl applyOp l) from
    hgen _ ⟨List.Pairwise.nil, List.Pairwise.nil, List.Pairwise.nil⟩
  induction ops with
  | nil => exact fun l h => h
  | cons op rest ih => exact fun l h => ih _ (applyOp_invariant l op h)

/-- C10: `lookupBinding` returns the mapping of the first occurrence of
the slot in construction order (set 0 before set 1 before set 2, bindings
in set order; `std::unordered_map::insert` never overwrites an existing
entry, so later occurrences in higher-index sets are ignored), and it
returns none exactly when the slot occurs in no set. -/
theorem lookupBinding_first_occurrence (l : DxvkBindingLayout) (slot : Nat) :
    lookupBinding l slot = lookupList (recordList l) slot
    ∧ (lookupBinding l slot = none ↔
        (∀ b ∈ l.set0, b.resourceBinding ≠ slot)
        ∧ (∀ b ∈ l.set1, b.resourceBinding ≠ slot)
        ∧ (∀ b ∈ l.set2, b.resourceBinding ≠ slot)) := by
  refine ⟨lookupBinding_eq_recordList l slot, ?_⟩
  rw [lookupBinding_eq_recordList, lookupList_eq_none_iff]
  unfold recordList
  simp only [List.mem_append, or_imp, forall_and]
  rw [recordSet_forall, recordSet_forall, recordSet_forall]
  tauto

end Dxvk
